import Mathlib

/-!
Verification of `src/galaxy/tools/containment_vessel/containment_vessel.py`
and of the datatype registrations in `src/galaxy/lib/mcfe_datatypes.py`.

The CAD kernel (cadquery) is modelled syntactically: a `Solid` records the
sequence of kernel construction and boolean calls with their numeric
arguments.  Numbers are rationals (the script's decimal literals are exact
rationals).  A `cq.Workplane(p).transformed(offset=o).cylinder(h, r)` call,
and the untransformed `cq.Workplane(p).cylinder(h, r)` (same geometry, zero
offset), are both modelled as `Solid.cylinder p o h r`.  A Python
`raise ValueError(msg)` is modelled as `Except.error msg`.
-/

namespace ContainmentVessel

/-- One cadquery solid, recorded as the tree of kernel calls that built it.
`chamferTop s a` models `s.edges(">Y").chamfer(a)` (chamfer of the top edge,
the only edge selector the script uses). -/
inductive Solid where
  | cylinder (plane : String) (offset : ℚ × ℚ × ℚ) (height : ℚ) (radius : ℚ)
  | sphere (plane : String) (offset : ℚ × ℚ × ℚ) (radius : ℚ)
  | box (plane : String) (length width height : ℚ)
  | chamferTop (s : Solid) (amount : ℚ)
  | translate (s : Solid) (v : ℚ × ℚ × ℚ)
  | cut (a b : Solid)
  | union (a b : Solid)
  deriving DecidableEq

/-- Line 50 of `containment_vessel.py`:
`reactor_core_radius = sum(radial_build) + 0.8 + major_rad`. -/
def reactor_core_radius (radial_build : List ℚ) (major_rad : ℚ) : ℚ :=
  radial_build.sum + 0.8 + major_rad

/-- Line 51: `reactor_core_height = 2 * reactor_core_radius`. -/
def reactor_core_height (radial_build : List ℚ) (major_rad : ℚ) : ℚ :=
  2 * reactor_core_radius radial_build major_rad

/-- Lines 114-129, `generate_hollow_cylinder`: raises ValueError when
`outer_radius <= inner_radius`, else cuts the inner coaxial cylinder from
the outer one (both on plane "ZX" at the same offset). -/
def generate_hollow_cylinder (height outer_radius inner_radius : ℚ)
    (offset : ℚ × ℚ × ℚ) : Except String Solid :=
  if outer_radius ≤ inner_radius then
    Except.error "outer_radius must be larger than inner_radius"
  else
    Except.ok (Solid.cut
      (Solid.cylinder "ZX" offset height outer_radius)
      (Solid.cylinder "ZX" offset height inner_radius))

/-- Lines 53-112, `create_roof`.  `contain_thickness` is captured from the
enclosing `reactor_building` (used only by the "domed" branch). -/
def create_roof (roof_type : String)
    (reactor_building_radius building_height contain_thickness : ℚ) :
    Except String Solid :=
  let roof_thickness : ℚ := 0.3
  let offset_height : ℚ := building_height / 2 + roof_thickness / 2
  if roof_type = "flat" then
    Except.ok (Solid.cylinder "ZX" (0, 0, offset_height)
      roof_thickness reactor_building_radius)
  else if roof_type = "domed" then
    let outer_radius := reactor_building_radius
    let inner_radius := outer_radius - contain_thickness
    let outer_sphere := Solid.sphere "ZX" (0, 0, 0) outer_radius
    let inner_sphere := Solid.sphere "ZX" (0, 0, 0) inner_radius
    let hemisphere := Solid.cut outer_sphere inner_sphere
    let hemisphere := Solid.translate hemisphere (0, offset_height, 0)
    let cut_box := Solid.translate
      (Solid.box "ZX" (3 * outer_radius) (3 * outer_radius) (2 * outer_radius))
      (0, 0, 0)
    Except.ok (Solid.cut hemisphere cut_box)
  else if roof_type = "cone" then
    let cone_height := roof_thickness * 4
    let bottom_radius := reactor_building_radius
    let wall_thickness : ℚ := 0.2
    let cone_base := Solid.cylinder "ZX" (0, 0, 0) cone_height bottom_radius
    let truncated_cone := Solid.chamferTop cone_base (cone_height * 0.75)
    let inner_radius := bottom_radius - wall_thickness
    let inner_cone := Solid.cylinder "ZX" (0, 0, 0) cone_height inner_radius
    let truncated_inner_cone := Solid.translate
      (Solid.chamferTop inner_cone (cone_height * 0.75)) (0, -0.3, 0)
    let truncated_cone := Solid.cut truncated_cone truncated_inner_cone
    Except.ok (Solid.translate truncated_cone (0, offset_height, 0))
  else
    Except.error "Invalid roof type"

/-- Lines 131-135: the `reactor_shielding` hollow cylinder. -/
def reactor_shielding (radial_build : List ℚ)
    (major_rad shield_thickness : ℚ) : Except String Solid :=
  generate_hollow_cylinder
    (reactor_core_height radial_build major_rad)
    (reactor_core_radius radial_build major_rad)
    (reactor_core_radius radial_build major_rad - shield_thickness)
    (0, 0, 0)

/-- Lines 137-142: the `reactor_building` shell hollow cylinder. -/
def reactor_building_shell (radial_build : List ℚ)
    (major_rad scale_factor contain_thickness : ℚ) : Except String Solid :=
  generate_hollow_cylinder
    (reactor_core_height radial_build major_rad * scale_factor)
    (reactor_core_radius radial_build major_rad * scale_factor)
    (reactor_core_radius radial_build major_rad * scale_factor
      - contain_thickness)
    (0, 0, 0)

/-- Lines 156-161: the upper support-structure ring, at vertical offset
`reactor_core_height / 2`. -/
def support_structure_upper (radial_build : List ℚ)
    (major_rad scale_factor : ℚ) : Except String Solid :=
  generate_hollow_cylinder 0.3
    (reactor_core_radius radial_build major_rad * scale_factor)
    (reactor_core_radius radial_build major_rad)
    (0, 0, reactor_core_height radial_build major_rad / 2)

/-- Lines 163-168: the middle support-structure ring, at vertical offset 0. -/
def support_structure_middle (radial_build : List ℚ)
    (major_rad scale_factor : ℚ) : Except String Solid :=
  generate_hollow_cylinder 0.3
    (reactor_core_radius radial_build major_rad * scale_factor)
    (reactor_core_radius radial_build major_rad)
    (0, 0, 0)

/-- Lines 170-175: the lower support-structure ring, at vertical offset
`-reactor_core_height / 2`. -/
def support_structure_lower (radial_build : List ℚ)
    (major_rad scale_factor : ℚ) : Except String Solid :=
  generate_hollow_cylinder 0.3
    (reactor_core_radius radial_build major_rad * scale_factor)
    (reactor_core_radius radial_build major_rad)
    (0, 0, -(reactor_core_height radial_build major_rad) / 2)

/-- Lines 144-148: the reactor core floor disk. -/
def reactor_core_floor (radial_build : List ℚ) (major_rad : ℚ) : Solid :=
  Solid.cylinder "ZX"
    (0, 0, -(reactor_core_height radial_build major_rad) / 2)
    0.3 (reactor_core_radius radial_build major_rad)

/-- Lines 150-154: the reactor building floor disk. -/
def reactor_building_floor (radial_build : List ℚ)
    (major_rad scale_factor : ℚ) : Solid :=
  Solid.cylinder "ZX"
    (0, 0, -(reactor_core_height radial_build major_rad * scale_factor) / 2)
    0.3 (reactor_core_radius radial_build major_rad * scale_factor)

/-- Line 190: `box1 = cq.Workplane("front").box(100, 100, 100)
.translate((0, 0, 50))`. -/
def box1 : Solid :=
  Solid.translate (Solid.box "front" 100 100 100) (0, 0, 50)

/-- Lines 33-193, `reactor_building`: the full orchestration.  Parts are
constructed in source order; the first ValueError aborts the build. -/
def reactor_building (radial_build : List ℚ)
    (major_rad scale_factor shield_thickness contain_thickness : ℚ) :
    Except String Solid := do
  let shielding ← reactor_shielding radial_build major_rad shield_thickness
  let shell ← reactor_building_shell radial_build major_rad scale_factor
    contain_thickness
  let core_floor := reactor_core_floor radial_build major_rad
  let building_floor := reactor_building_floor radial_build major_rad
    scale_factor
  let s_upper ← support_structure_upper radial_build major_rad scale_factor
  let s_middle ← support_structure_middle radial_build major_rad scale_factor
  let s_lower ← support_structure_lower radial_build major_rad scale_factor
  let roof ← create_roof "cone"
    (reactor_core_radius radial_build major_rad * scale_factor)
    (reactor_core_height radial_build major_rad * scale_factor)
    contain_thickness
  let total := Solid.union shielding shell
  let total := Solid.union total core_floor
  let total := Solid.union total building_floor
  let total := Solid.union total s_upper
  let total := Solid.union total s_middle
  let total := Solid.union total s_lower
  let total := Solid.union total roof
  return Solid.cut total box1

/-- Line 210 of the script body: `major_radius = aspect_ratio *
radial_build_input[0]` (taking the head of the non-empty radial build). -/
def major_radius_calc ( aspect_ratio : ℚ) (radial_build : List ℚ) : ℚ :=
  aspect_ratio * radial_build.headD 0

/-- The solid built by the "cone" branch of `create_roof` (lines 86-111),
with the local lets of the source inlined. -/
def cone_roof_solid (radius building_height : ℚ) : Solid :=
  Solid.translate
    (Solid.cut
      (Solid.chamferTop (Solid.cylinder "ZX" (0, 0, 0) (0.3 * 4) radius)
        (0.3 * 4 * 0.75))
      (Solid.translate
        (Solid.chamferTop
          (Solid.cylinder "ZX" (0, 0, 0) (0.3 * 4) (radius - 0.2))
          (0.3 * 4 * 0.75))
        (0, -0.3, 0)))
    (0, building_height / 2 + 0.3 / 2, 0)

/-- The solid `reactor_building` returns when no construction step fails. -/
def reactor_building_ok_solid (rb : List ℚ) (mr sf st ct : ℚ) : Solid :=
  Solid.cut
    (Solid.union
      (Solid.union
        (Solid.union
          (Solid.union
            (Solid.union
              (Solid.union
                (Solid.union
                  (Solid.cut
                    (Solid.cylinder "ZX" (0, 0, 0)
                      (reactor_core_height rb mr) (reactor_core_radius rb mr))
                    (Solid.cylinder "ZX" (0, 0, 0)
                      (reactor_core_height rb mr)
                      (reactor_core_radius rb mr - st)))
                  (Solid.cut
                    (Solid.cylinder "ZX" (0, 0, 0)
                      (reactor_core_height rb mr * sf)
                      (reactor_core_radius rb mr * sf))
                    (Solid.cylinder "ZX" (0, 0, 0)
                      (reactor_core_height rb mr * sf)
                      (reactor_core_radius rb mr * sf - ct))))
                (reactor_core_floor rb mr))
              (reactor_building_floor rb mr sf))
            (Solid.cut
              (Solid.cylinder "ZX" (0, 0, reactor_core_height rb mr / 2) 0.3
                (reactor_core_radius rb mr * sf))
              (Solid.cylinder "ZX" (0, 0, reactor_core_height rb mr / 2) 0.3
                (reactor_core_radius rb mr))))
          (Solid.cut
            (Solid.cylinder "ZX" (0, 0, 0) 0.3
              (reactor_core_radius rb mr * sf))
            (Solid.cylinder "ZX" (0, 0, 0) 0.3 (reactor_core_radius rb mr))))
        (Solid.cut
          (Solid.cylinder "ZX" (0, 0, -(reactor_core_height rb mr) / 2) 0.3
            (reactor_core_radius rb mr * sf))
          (Solid.cylinder "ZX" (0, 0, -(reactor_core_height rb mr) / 2) 0.3
            (reactor_core_radius rb mr))))
      (cone_roof_solid (reactor_core_radius rb mr * sf)
        (reactor_core_height rb mr * sf)))
    box1

/-- Modelled from claim C3's words: the upper support ring positioned at the
BUILDING's upper plane, i.e. at vertical offset
`building_height / 2 = core_height * scale_factor / 2`.  For comparison with
`support_structure_upper`, which embeds the source. -/
def support_structure_upper_claimed (radial_build : List ℚ)
    (major_rad scale_factor : ℚ) : Except String Solid :=
  generate_hollow_cylinder 0.3
    (reactor_core_radius radial_build major_rad * scale_factor)
    (reactor_core_radius radial_build major_rad)
    (0, 0, reactor_core_height radial_build major_rad * scale_factor / 2)

/-- Modelled from claim C4's words: the cone roof built with the inner
tapered shape still coaxial and at the SAME vertical position as the outer
at the moment of subtraction (no downward shift of the inner shape).  For
comparison with the "cone" branch of `create_roof`, which embeds the
source. -/
def create_roof_cone_claimed (radius building_height : ℚ) : Solid :=
  Solid.translate
    (Solid.cut
      (Solid.chamferTop (Solid.cylinder "ZX" (0, 0, 0) (4 * 0.3) radius)
        (4 * 0.3 * 0.75))
      (Solid.chamferTop
        (Solid.cylinder "ZX" (0, 0, 0) (4 * 0.3) (radius - 0.2))
        (4 * 0.3 * 0.75)))
    (0, building_height / 2 + 0.15, 0)

end ContainmentVessel

namespace McfeDatatypes

/-- Line 14 of `mcfe_datatypes.py`: `class vtp(data.Data): file_ext = "vtp"`. -/
def vtp_file_ext : String := "vtp"

/-- Line 26: the extension registered by the `usd` class. -/
def usd_file_ext : String := "usd"

/-- Line 29: the extension registered by the class named `usda` is the
string `"udsa"` exactly as written in the source. -/
def usda_file_ext : String := "udsa"

/-- Line 32: the extension registered by the `usdc` class. -/
def usdc_file_ext : String := "usdc"

end McfeDatatypes

namespace ContainmentVessel

theorem exceptBind_ok {α β : Type} (a : α) (f : α → Except String β) :
    (Except.ok a >>= f) = f a := rfl

theorem exceptBind_error {α β : Type} (e : String) (f : α → Except String β) :
    ((Except.error e : Except String α) >>= f) = Except.error e := rfl

theorem exceptPure {α : Type} (a : α) :
    (pure a : Except String α) = Except.ok a := rfl

/-- The "cone" branch of `create_roof` never fails and returns exactly
`cone_roof_solid`. -/
theorem create_roof_cone_ok (radius building_height contain_thickness : ℚ) :
    create_roof "cone" radius building_height contain_thickness
      = Except.ok (cone_roof_solid radius building_height) := by
  unfold create_roof cone_roof_solid
  rw [if_neg (by decide), if_neg (by decide), if_pos rfl]

/-- Case analysis of `reactor_building`: it fails with the
hollow-cylinder ValueError exactly when one of the three hollow-cylinder
preconditions is violated (shielding, shell, support rings — the three
rings share one condition), and otherwise returns
`reactor_building_ok_solid`. -/
theorem reactor_building_cases (rb : List ℚ) (mr sf st ct : ℚ) :
    reactor_building rb mr sf st ct =
      if reactor_core_radius rb mr ≤ reactor_core_radius rb mr - st then
        Except.error "outer_radius must be larger than inner_radius"
      else if reactor_core_radius rb mr * sf
          ≤ reactor_core_radius rb mr * sf - ct then
        Except.error "outer_radius must be larger than inner_radius"
      else if reactor_core_radius rb mr * sf ≤ reactor_core_radius rb mr then
        Except.error "outer_radius must be larger than inner_radius"
      else
        Except.ok (reactor_building_ok_solid rb mr sf st ct) := by
  unfold reactor_building reactor_shielding reactor_building_shell
    support_structure_upper support_structure_middle support_structure_lower
    generate_hollow_cylinder
  rw [create_roof_cone_ok]
  split_ifs <;>
    simp_all [exceptBind_ok, exceptBind_error, exceptPure,
      reactor_building_ok_solid]

/-- Claim C1: for every BuildParameters whose radial_build is a non-empty
list of numbers and whose major_radius is nonnegative, the first two lines
of `reactor_building` compute `core_radius = sum(radial_build) + 0.8 +
major_radius` and `core_height = 2 * core_radius`, exactly, and raise no
error (the embedded computation is total). -/
theorem C1_derive_dimensions (radial_build : List ℚ) (major_rad : ℚ)
    (hne : radial_build ≠ []) (hmr : 0 ≤ major_rad) :
    reactor_core_radius radial_build major_rad
        = radial_build.sum + 0.8 + major_rad ∧
      reactor_core_height radial_build major_rad
        = 2 * (radial_build.sum + 0.8 + major_rad) :=
  ⟨rfl, rfl⟩

/-- Witness for C1 at radial_build = [1, 2, 3], major_radius = 3/2. -/
theorem C1_derive_dimensions_witness :
    reactor_core_radius [1, 2, 3] (3/2) = [(1 : ℚ), 2, 3].sum + 0.8 + 3/2 ∧
      reactor_core_height [1, 2, 3] (3/2)
        = 2 * ([(1 : ℚ), 2, 3].sum + 0.8 + 3/2) :=
  C1_derive_dimensions [1, 2, 3] (3/2) (by simp) (by norm_num)

/-- Claim C2: for every height, outer radius, inner radius and center
offset, `generate_hollow_cylinder` fails with the InvalidGeometry
ValueError if and only if `outer_radius <= inner_radius` (equal radii are
also rejected, never clamped); when `outer_radius > inner_radius` it
returns, without error, the set-difference of the two coaxial cylinders
sharing the height and the offset. -/
theorem C2_hollow_cylinder (height outer_radius inner_radius : ℚ)
    (offset : ℚ × ℚ × ℚ) :
    (generate_hollow_cylinder height outer_radius inner_radius offset
        = Except.error "outer_radius must be larger than inner_radius"
      ↔ outer_radius ≤ inner_radius) ∧
    (inner_radius < outer_radius →
      generate_hollow_cylinder height outer_radius inner_radius offset
        = Except.ok (Solid.cut
            (Solid.cylinder "ZX" offset height outer_radius)
            (Solid.cylinder "ZX" offset height inner_radius))) := by
  unfold generate_hollow_cylinder
  constructor
  · split <;> simp_all
  · intro h
    rw [if_neg (not_le.mpr h)]

/-- Witness for C2 at height 1, outer radius 2, inner radius 1. -/
theorem C2_hollow_cylinder_witness :
    generate_hollow_cylinder 1 2 1 (0, 0, 0)
      = Except.ok (Solid.cut
          (Solid.cylinder "ZX" (0, 0, 0) 1 2)
          (Solid.cylinder "ZX" (0, 0, 0) 1 1)) :=
  (C2_hollow_cylinder 1 2 1 (0, 0, 0)).2 (by norm_num)

/-- Counterexample to claim C3 as stated: with radial_build = [1],
major_radius = 0 and scale_factor = 2, the source positions the upper
support ring at vertical offset `core_height / 2 = 1.8`, not at the
building's upper plane `core_height * scale_factor / 2 = 3.6` that the
claim requires, so the constructed ring differs from the claimed one. -/
theorem C3_counterexample :
    support_structure_upper [1] 0 2
      ≠ support_structure_upper_claimed [1] 0 2 := by
  norm_num [support_structure_upper, support_structure_upper_claimed,
    generate_hollow_cylinder, reactor_core_radius, reactor_core_height]

/-- Claim C3 (amended): each of the three annular support-structure rings
has thickness 0.3, outer radius = core_radius * scale_factor and inner
radius = core_radius, and the three are positioned at the CORE's upper
plane, the middle plane z = 0, and the CORE's lower plane (vertical
offsets +core_height/2, 0 and -core_height/2) — not at the building's
upper and lower planes. -/
theorem C3_support_rings (radial_build : List ℚ) (major_rad scale_factor : ℚ)
    (h : reactor_core_radius radial_build major_rad
        < reactor_core_radius radial_build major_rad * scale_factor) :
    support_structure_upper radial_build major_rad scale_factor
        = Except.ok (Solid.cut
            (Solid.cylinder "ZX"
              (0, 0, reactor_core_height radial_build major_rad / 2) 0.3
              (reactor_core_radius radial_build major_rad * scale_factor))
            (Solid.cylinder "ZX"
              (0, 0, reactor_core_height radial_build major_rad / 2) 0.3
              (reactor_core_radius radial_build major_rad))) ∧
      support_structure_middle radial_build major_rad scale_factor
        = Except.ok (Solid.cut
            (Solid.cylinder "ZX" (0, 0, 0) 0.3
              (reactor_core_radius radial_build major_rad * scale_factor))
            (Solid.cylinder "ZX" (0, 0, 0) 0.3
              (reactor_core_radius radial_build major_rad))) ∧
      support_structure_lower radial_build major_rad scale_factor
        = Except.ok (Solid.cut
            (Solid.cylinder "ZX"
              (0, 0, -(reactor_core_height radial_build major_rad) / 2) 0.3
              (reactor_core_radius radial_build major_rad * scale_factor))
            (Solid.cylinder "ZX"
              (0, 0, -(reactor_core_height radial_build major_rad) / 2) 0.3
              (reactor_core_radius radial_build major_rad))) := by
  unfold support_structure_upper support_structure_middle
    support_structure_lower generate_hollow_cylinder
  rw [if_neg (not_le.mpr h), if_neg (not_le.mpr h), if_neg (not_le.mpr h)]
  exact ⟨rfl, rfl, rfl⟩

/-- Witness for the amended C3 at radial_build = [1], major_radius = 0,
scale_factor = 2. -/
theorem C3_support_rings_witness :
    support_structure_upper [1] 0 2
        = Except.ok (Solid.cut
            (Solid.cylinder "ZX" (0, 0, reactor_core_height [1] 0 / 2) 0.3
              (reactor_core_radius [1] 0 * 2))
            (Solid.cylinder "ZX" (0, 0, reactor_core_height [1] 0 / 2) 0.3
              (reactor_core_radius [1] 0))) ∧
      support_structure_middle [1] 0 2
        = Except.ok (Solid.cut
            (Solid.cylinder "ZX" (0, 0, 0) 0.3 (reactor_core_radius [1] 0 * 2))
            (Solid.cylinder "ZX" (0, 0, 0) 0.3 (reactor_core_radius [1] 0))) ∧
      support_structure_lower [1] 0 2
        = Except.ok (Solid.cut
            (Solid.cylinder "ZX" (0, 0, -(reactor_core_height [1] 0) / 2) 0.3
              (reactor_core_radius [1] 0 * 2))
            (Solid.cylinder "ZX" (0, 0, -(reactor_core_height [1] 0) / 2) 0.3
              (reactor_core_radius [1] 0))) :=
  C3_support_rings [1] 0 2 (by norm_num [reactor_core_radius])

/-- Counterexample to claim C4 as stated: at radius 5, building height 10,
the source translates the inner tapered shape down by 0.3 before the
subtraction, so the constructed cone roof differs from the claimed one in
which both shapes are at the same vertical position at the moment of
subtraction. -/
theorem C4_counterexample :
    create_roof "cone" 5 10 0.3
      ≠ Except.ok (create_roof_cone_claimed 5 10) := by
  rw [create_roof_cone_ok]
  simp [cone_roof_solid, create_roof_cone_claimed]

/-- Claim C4 (amended): `create_roof` with kind "cone" constructs exactly
two coaxial cylinders of height 4 * 0.3 with outer radius = radius and
inner radius = radius - 0.2, each chamfered on its top edge by 0.75 of
that height; the inner tapered shape is translated DOWN by 0.3 along the
vertical axis and then subtracted from the outer, and the result is
translated to the roof offset height building_height/2 + 0.15. -/
theorem C4_cone_roof (radius building_height contain_thickness : ℚ) :
    create_roof "cone" radius building_height contain_thickness
      = Except.ok (Solid.translate
          (Solid.cut
            (Solid.chamferTop
              (Solid.cylinder "ZX" (0, 0, 0) (4 * 0.3) radius)
              (4 * 0.3 * 0.75))
            (Solid.translate
              (Solid.chamferTop
                (Solid.cylinder "ZX" (0, 0, 0) (4 * 0.3) (radius - 0.2))
                (4 * 0.3 * 0.75))
              (0, -0.3, 0)))
          (0, building_height / 2 + 0.15, 0)) := by
  rw [create_roof_cone_ok]
  norm_num [cone_roof_solid]

/-- Claim C5: for every kind string other than "flat", "domed" and "cone",
`create_roof` fails with the InvalidRoofType ValueError and returns no
solid; there is no default branch. -/
theorem C5_invalid_roof_type (kind : String)
    (radius building_height contain_thickness : ℚ)
    (h1 : kind ≠ "flat") (h2 : kind ≠ "domed") (h3 : kind ≠ "cone") :
    create_roof kind radius building_height contain_thickness
      = Except.error "Invalid roof type" := by
  simp only [create_roof, if_neg h1, if_neg h2, if_neg h3]

/-- Witness for C5 at kind = "gabled". -/
theorem C5_invalid_roof_type_witness :
    create_roof "gabled" 1 1 1 = Except.error "Invalid roof type" :=
  C5_invalid_roof_type "gabled" 1 1 1 (by decide) (by decide) (by decide)

/-- Claim C6: whenever `reactor_building` succeeds, the returned solid is
the trimming cut of a union whose last component is exactly the solid the
"cone" branch of `create_roof` produces for radius core_radius *
scale_factor and building height core_height * scale_factor; the
orchestration passes the fixed kind "cone", so no input can select the
flat or domed roof. -/
theorem C6_roof_fixed_cone (radial_build : List ℚ)
    (major_rad scale_factor shield_thickness contain_thickness : ℚ) (s : Solid)
    (h : reactor_building radial_build major_rad scale_factor shield_thickness
        contain_thickness = Except.ok s) :
    ∃ rest : Solid,
      s = Solid.cut
          (Solid.union rest
            (cone_roof_solid
              (reactor_core_radius radial_build major_rad * scale_factor)
              (reactor_core_height radial_build major_rad * scale_factor)))
          box1 ∧
      create_roof "cone"
          (reactor_core_radius radial_build major_rad * scale_factor)
          (reactor_core_height radial_build major_rad * scale_factor)
          contain_thickness
        = Except.ok (cone_roof_solid
            (reactor_core_radius radial_build major_rad * scale_factor)
            (reactor_core_height radial_build major_rad * scale_factor)) := by
  rw [reactor_building_cases] at h
  split_ifs at h
  injection h with h
  subst h
  exact ⟨_, rfl, create_roof_cone_ok _ _ _⟩

/-- Witness for C6 at radial_build = [1], major_radius = 0, scale_factor
= 2, shield_thickness = 1, containment_thickness = 1. -/
theorem C6_roof_fixed_cone_witness :
    ∃ s rest,
      reactor_building [1] 0 2 1 1 = Except.ok s ∧
        s = Solid.cut
            (Solid.union rest
              (cone_roof_solid (reactor_core_radius [1] 0 * 2)
                (reactor_core_height [1] 0 * 2)))
            box1 := by
  have hok : reactor_building [1] 0 2 1 1
      = Except.ok (reactor_building_ok_solid [1] 0 2 1 1) := by
    rw [reactor_building_cases]
    norm_num [reactor_core_radius]
  obtain ⟨rest, hr, -⟩ := C6_roof_fixed_cone [1] 0 2 1 1 _ hok
  exact ⟨_, rest, hok, hr⟩

/-- Claim C7: with radial_build = [1.0, 2.0, 3.0] and aspect_ratio = 1.5
the derived major_radius is 1.5, core_radius is 8.3 and core_height is
16.6 in exact arithmetic; with shield_thickness = 0.5 the reactor
shielding is the hollow cylinder of height 16.6, outer radius 8.3 and
inner radius 7.8, constructed without InvalidGeometry error since
7.8 < 8.3. -/
theorem C7_end_to_end :
    major_radius_calc 1.5 [1, 2, 3] = 1.5 ∧
      reactor_core_radius [1, 2, 3] 1.5 = 8.3 ∧
      reactor_core_height [1, 2, 3] 1.5 = 16.6 ∧
      reactor_shielding [1, 2, 3] 1.5 0.5
        = Except.ok (Solid.cut
            (Solid.cylinder "ZX" (0, 0, 0) 16.6 8.3)
            (Solid.cylinder "ZX" (0, 0, 0) 16.6 7.8)) ∧
      (7.8 : ℚ) < 8.3 := by
  refine ⟨by norm_num [major_radius_calc], by norm_num [reactor_core_radius],
    by norm_num [reactor_core_height, reactor_core_radius], ?_, by norm_num⟩
  norm_num [reactor_shielding, generate_hollow_cylinder, reactor_core_radius,
    reactor_core_height]

/-- Claim C9: `reactor_building` is deterministic — two invocations with
identical parameters produce the identical sequence of construction and
boolean operations, hence equal results in the embedding. -/
theorem C9_deterministic (rb₁ rb₂ : List ℚ)
    (mr₁ mr₂ sf₁ sf₂ st₁ st₂ ct₁ ct₂ : ℚ)
    (hrb : rb₁ = rb₂) (hmr : mr₁ = mr₂) (hsf : sf₁ = sf₂)
    (hst : st₁ = st₂) (hct : ct₁ = ct₂) :
    reactor_building rb₁ mr₁ sf₁ st₁ ct₁
      = reactor_building rb₂ mr₂ sf₂ st₂ ct₂ := by
  rw [hrb, hmr, hsf, hst, hct]

/-- Witness for C9 at radial_build = [1], major_radius = 0, scale_factor
= 2, shield_thickness = 1, containment_thickness = 1. -/
theorem C9_deterministic_witness :
    reactor_building [1] 0 2 1 1 = reactor_building [1] 0 2 1 1 :=
  C9_deterministic [1] [1] 0 0 2 2 1 1 1 1 rfl rfl rfl rfl rfl

/-- Claim C10: for every parameter set whose derived core_radius is
positive, `reactor_building` fails with the hollow-cylinder
InvalidGeometry ValueError whenever scale_factor <= 1 (each support ring
requires core_radius * scale_factor > core_radius), and it can only
succeed when scale_factor > 1, shield_thickness > 0 and
containment_thickness > 0. -/
theorem C10_success_requires_scale_factor (radial_build : List ℚ)
    (major_rad scale_factor shield_thickness contain_thickness : ℚ)
    (hcr : 0 < reactor_core_radius radial_build major_rad) :
    (scale_factor ≤ 1 →
      reactor_building radial_build major_rad scale_factor shield_thickness
          contain_thickness
        = Except.error "outer_radius must be larger than inner_radius") ∧
    ((reactor_building radial_build major_rad scale_factor shield_thickness
        contain_thickness).isOk = true →
      1 < scale_factor ∧ 0 < shield_thickness ∧ 0 < contain_thickness) := by
  rw [reactor_building_cases]
  constructor
  · intro hsf
    have h3 : reactor_core_radius radial_build major_rad * scale_factor
        ≤ reactor_core_radius radial_build major_rad := by
      calc reactor_core_radius radial_build major_rad * scale_factor
          ≤ reactor_core_radius radial_build major_rad * 1 :=
            mul_le_mul_of_nonneg_left hsf hcr.le
        _ = reactor_core_radius radial_build major_rad := mul_one _
    split_ifs <;> rfl
  · intro hok
    split_ifs at hok with h1 h2 h3
    · simp [Except.isOk, Except.toBool] at hok
    · simp [Except.isOk, Except.toBool] at hok
    · simp [Except.isOk, Except.toBool] at hok
    · refine ⟨?_, by linarith [not_le.mp h1], by linarith [not_le.mp h2]⟩
      have := not_le.mp h3
      nlinarith

/-- Witness for C10 at radial_build = [1], major_radius = 0 (core_radius
= 1.8 > 0) and scale_factor = 1: the build fails with the hollow-cylinder
ValueError. -/
theorem C10_success_requires_scale_factor_witness :
    reactor_building [1] 0 1 1 1
      = Except.error "outer_radius must be larger than inner_radius" :=
  (C10_success_requires_scale_factor [1] 0 1 1 1
    (by norm_num [reactor_core_radius])).1 le_rfl

end ContainmentVessel

namespace McfeDatatypes

/-- Claim C8 is contradicted by the source: the class named `usda`
registers the extension string "udsa" (a transposition of "usda"), not
"usda" as the claim and the module's naming convention state. -/
theorem C8_usda_extension :
    usda_file_ext = "udsa" ∧ usda_file_ext ≠ "usda" :=
  ⟨rfl, by decide⟩

end McfeDatatypes
